import Mathlib

/-!
Verification development for the netpod-jlabath-mongo pod (src/main.go).

The Go source is shallowly embedded: JSON inputs are modelled as a parsed
JSON value type, the decoding routines of src/main.go are translated into
Lean functions, and the MongoDB driver (an external dependency of the
repository) is modelled through the interface it presents to the handlers.
-/

/-- Parsed JSON values. Numbers are carried with an integer payload since no
behaviour of this program depends on the numeric value beyond its JSON type
(the Go code only type-asserts float64 and truncates to int64). -/
inductive Json where
  | null : Json
  | bool (b : Bool) : Json
  | num (n : Int) : Json
  | str (s : String) : Json
  | arr (elems : List Json) : Json
  | obj (fields : List (String × Json)) : Json

/-- A decoded filter value: either a 12-byte object id (primitive.ObjectID,
represented by its canonical lower-case 24-hex rendering) or a generic
value left as decoded JSON (the interface value branch). -/
inductive BsonValue where
  | objectId (hex : String) : BsonValue
  | json (j : Json) : BsonValue

/-- Whether a decoded value is an object reference. -/
def BsonValue.isObjectRef : BsonValue → Bool
  | BsonValue.objectId _ => true
  | BsonValue.json _ => false

/-- Go error values as the handlers produce them.  wrap models
fmt.Errorf with a %w verb: a message with a wrapped cause. argumentError
models the arity failure of pod.DecodeArgs (see decodeFindArgs). -/
inductive GoError where
  | errNoDocuments : GoError
  | contextCanceled : GoError
  | argumentError (got : Nat) : GoError
  | decodeError (msg : String) : GoError
  | simple (msg : String) : GoError
  | wrap (label : String) (cause : GoError) : GoError
deriving DecidableEq

/-- Go errors.Is: walks the %w wrap chain looking for the target. -/
def GoError.goIs : GoError → GoError → Bool
  | e, target =>
    if e = target then true
    else
      match e with
      | GoError.wrap _ cause => GoError.goIs cause target
      | _ => false

/-- The StoreError shape of the spec taxonomy: an error produced by
wrapping an underlying driver cause (fmt.Errorf with %w in the handlers). -/
def GoError.isStoreWrapped : GoError → Bool
  | GoError.wrap _ _ => true
  | _ => false

/-- json.Unmarshal of a JSON value into a Go string variable: succeeds on a
JSON string, and on null (which leaves the zero value "" and is not an
error in encoding/json); fails on every other JSON type. -/
def unmarshalString : Json → Option String
  | Json.str s => some s
  | Json.null => some ""
  | _ => none

/-- json.Unmarshal of a JSON value into a Go slice variable
([]json.RawMessage): an array gives its elements, null gives the nil
slice, anything else is a type error. -/
def unmarshalRawSlice : Json → Option (List Json)
  | Json.arr elems => some elems
  | Json.null => some []
  | _ => none

/-- The ASCII lower-casing used by the case-insensitive struct-field match
of encoding/json (the field name ObjectId is plain ASCII letters, for
which the json fold is exactly ASCII case folding). -/
def asciiLower (c : Char) : Char :=
  if 'A' ≤ c && c ≤ 'Z' then Char.ofNat (c.toNat + 32) else c

/-- Does a JSON object key match the struct field ObjectId of HexObjID?
encoding/json matches field names case-insensitively. -/
def fieldMatchesObjectId (k : String) : Bool :=
  k.toList.map asciiLower == "objectid".toList

/-- State fold of json.Unmarshal into the struct HexObjID over the fields
of a JSON object, in document order.  A matching key assigns its string
value (later occurrences overwrite earlier ones); a null value assigns
nothing; a non-string, non-null value under a matching key is a saved
type error (encoding/json records it and keeps decoding); non-matching
keys are skipped whatever their values are.  The state is
(current field value, whether an error was saved). -/
def hexObjIDStep : List (String × Json) → String → Bool → String × Bool
  | [], acc, errored => (acc, errored)
  | (k, v) :: rest, acc, errored =>
    if fieldMatchesObjectId k then
      match v with
      | Json.str s => hexObjIDStep rest s errored
      | Json.null => hexObjIDStep rest acc errored
      | _ => hexObjIDStep rest acc true
    else hexObjIDStep rest acc errored

/-- json.Unmarshal of a JSON value into HexObjID (struct with one string
field ObjectId): returns the decoded ObjectId field, or none when
unmarshalling errors.  Unmarshalling null into a struct is a no-op in Go,
leaving the zero value "". -/
def unmarshalHexObjID : Json → Option String
  | Json.obj fields =>
    match hexObjIDStep fields "" false with
    | (_, true) => none
    | (acc, false) => some acc
  | Json.null => some ""
  | _ => none

/-- Is this character a hexadecimal digit accepted by encoding/hex? -/
def isHexChar (c : Char) : Bool :=
  c.isDigit || ('a' ≤ c && c ≤ 'f') || ('A' ≤ c && c ≤ 'F')

/-- The validity test of primitive.ObjectIDFromHex: length exactly 24 and
a successful hex decode (24 hex digits = 12 bytes; encoding/hex accepts
exactly the characters 0-9, a-f, A-F). -/
def isValidObjectIdHex (s : String) : Bool :=
  s.length == 24 && s.toList.all isHexChar

/-- The ObjectID obtained from a valid 24-hex string: the 12 decoded
bytes, represented by their canonical lower-case hex rendering. -/
def oidOfHex (s : String) : String :=
  String.mk (s.toList.map asciiLower)

/-- primitive.ObjectIDFromHex: yields the ObjectID of a valid 24-hex
string (hex decoding is case-insensitive, so two spellings of the same
bytes give the same ObjectID), and an error otherwise. -/
def ObjectIDFromHex (s : String) : Option String :=
  if isValidObjectIdHex s then some (oidOfHex s) else none

/-- bson.E: one ordered key/value element of a bson.D filter document. -/
structure bsonE where
  Key : String
  Value : BsonValue

/-- type filterTuple bson.E -/
abbrev filterTuple := bsonE

/-- filterTuple.UnmarshalJSON (src/main.go lines 26-62), over a parsed
JSON value: unmarshal into a raw-message slice, require exactly 2
elements, decode the key as a string, then try HexObjID + ObjectIDFromHex
on the value and on any failure fall back to the generic interface
decode, which at the parsed-JSON level always succeeds. -/
def filterTuple.unmarshalJSON (data : Json) : Except GoError filterTuple :=
  match unmarshalRawSlice data with
  | none =>
    Except.error (GoError.decodeError "json: cannot unmarshal value into Go value of type []json.RawMessage")
  | some [rawKey, rawVal] =>
    match unmarshalString rawKey with
    | none =>
      Except.error (GoError.decodeError "json: cannot unmarshal value into Go value of type string")
    | some key =>
      match unmarshalHexObjID rawVal with
      | some candidate =>
        match ObjectIDFromHex candidate with
        | some oid => Except.ok { Key := key, Value := BsonValue.objectId oid }
        | none => Except.ok { Key := key, Value := BsonValue.json rawVal }
      | none => Except.ok { Key := key, Value := BsonValue.json rawVal }
  | some slice =>
    Except.error (GoError.decodeError ("filter tuple must have 2 values but got " ++ toString slice.length))

/-- type filterSlice []filterTuple -/
abbrev filterSlice := List filterTuple

/-- Element-wise decoding of a JSON array into filter tuples, in order,
stopping at the first failing element (encoding/json propagates an error
returned by a custom UnmarshalJSON immediately). -/
def decodeTuples : List Json → Except GoError (List filterTuple)
  | [] => Except.ok []
  | j :: rest =>
    match filterTuple.unmarshalJSON j with
    | Except.error e => Except.error e
    | Except.ok t =>
      match decodeTuples rest with
      | Except.error e => Except.error e
      | Except.ok ts => Except.ok (t :: ts)

/-- json.Unmarshal of a JSON value into a filterSlice: the standard slice
decoder applied with the element decoder filterTuple.UnmarshalJSON; null
yields the nil slice. -/
def filterSlice.unmarshalJSON (data : Json) : Except GoError filterSlice :=
  match data with
  | Json.null => Except.ok []
  | Json.arr elems => decodeTuples elems
  | _ =>
    Except.error (GoError.decodeError "json: cannot unmarshal value into Go value of type []filterTuple")

/-- filterSlice.ToBSOND (src/main.go lines 66-73): element-wise conversion
filterTuple → bson.E into a bson.D, preserving order. -/
def filterSlice.ToBSOND (r : filterSlice) : List bsonE :=
  r.map (fun item => { Key := item.Key, Value := item.Value })

/-- The decoded userOptions map (map[string]interface\x7b\x7d), as the
field list of the JSON object it was decoded from. -/
abbrev OptionsBag := List (String × Json)

/-- Go map lookup on a map decoded from a JSON object: duplicate JSON keys
overwrite earlier ones, so the value of the last matching field wins. -/
def mapLookup (bag : OptionsBag) (k : String) : Option Json :=
  ((bag.filter (fun p => p.1 == k)).getLast?).map (fun p => p.2)

/-- json.Unmarshal of a JSON value into map[string]interface: an object
gives its fields, null the nil map, anything else a type error. -/
def decodeOptionsBag : Json → Except GoError OptionsBag
  | Json.obj fields => Except.ok fields
  | Json.null => Except.ok []
  | _ =>
    Except.error (GoError.decodeError "json: cannot unmarshal value into Go value of type map[string]interface")

/-- options.FindOneOptions: the query modifiers of a find-one call (the
fields the mongo options builder exposes that are relevant here; all
default to unset). -/
structure FindOneOptions where
  Projection : Option Json := none
  SortOpt : Option Json := none
  Skip : Option Int := none
  AllowPartialResults : Option Bool := none

/-- options.FindOptions: the query modifiers of a find call used by the
program (all default to unset). -/
structure FindOptions where
  Projection : Option Json := none
  SortOpt : Option Json := none
  AllowDiskUse : Option Bool := none
  Limit : Option Int := none

/-- Options population of findOne (src/main.go lines 140-143): start from
options.FindOne() defaults and set only the projection if present. -/
def findOneOpts (userOptions : OptionsBag) : FindOneOptions :=
  let opts : FindOneOptions := {}
  match mapLookup userOptions "projection" with
  | some projection => { opts with Projection := some projection }
  | none => opts

/-- Options population of findMany (src/main.go lines 193-216): start from
options.Find() defaults; projection and sort are passed through
uninterpreted; allow-disk-use is applied only when the value is a bool,
limit only when the value is a number (float64 in the generic decode),
otherwise the mismatch is logged and the modifier left unset. -/
def findOpts (userOptions : OptionsBag) : FindOptions :=
  let o0 : FindOptions := {}
  let o1 :=
    match mapLookup userOptions "projection" with
    | some projection => { o0 with Projection := some projection }
    | none => o0
  let o2 :=
    match mapLookup userOptions "sort" with
    | some sort => { o1 with SortOpt := some sort }
    | none => o1
  let o3 :=
    match mapLookup userOptions "allow-disk-use" with
    | some (Json.bool r) => { o2 with AllowDiskUse := some r }
    | some _ => o2
    | none => o2
  match mapLookup userOptions "limit" with
  | some (Json.num r) => { o3 with Limit := some r }
  | some _ => o3
  | none => o3

/-- Outcome of the driver call coll.FindOne(...).Decode(&result). -/
inductive FindOneOutcome where
  | found (doc : Json) : FindOneOutcome
  | noDocuments : FindOneOutcome
  | driverError (e : GoError) : FindOneOutcome

/-- The interface the handlers consume from the mongo driver (an external
dependency; spec section 6 store-driver contract).  findRes yields the
cursor (modelled as the list of documents it will produce) or a driver
error; cursorAllRes models cursor.All materialisation, which can also
fail. -/
structure MongoDriver where
  findOneRes : String → String → List bsonE → FindOneOptions → FindOneOutcome
  findRes : String → String → List bsonE → FindOptions → Except GoError (List Json)
  cursorAllRes : List Json → Except GoError (List Json)

/-- Argument decoding shared by findOne and findMany (src/main.go lines
121-131 and 174-184): with 4 arguments decode all four targets, otherwise
decode the three targets dbname, collectionName, filters and leave
userOptions as the nil map.  pod.DecodeArgs belongs to the external
netpod library, whose code is not under src/.  Modelled from the spec:
pod.DecodeArgs fails with an ArgumentError when the number of positional
arguments differs from the number of decode targets, and otherwise
decodes each argument into its target in order. -/
def decodeFindArgs (args : List Json) : Except GoError (String × String × filterSlice × OptionsBag) :=
  match args with
  | [a0, a1, a2, a3] =>
    match unmarshalString a0 with
    | none => Except.error (GoError.decodeError "json: cannot unmarshal dbname")
    | some dbname =>
      match unmarshalString a1 with
      | none => Except.error (GoError.decodeError "json: cannot unmarshal collectionName")
      | some collectionName =>
        match filterSlice.unmarshalJSON a2 with
        | Except.error e => Except.error e
        | Except.ok filters =>
          match decodeOptionsBag a3 with
          | Except.error e => Except.error e
          | Except.ok userOptions => Except.ok (dbname, collectionName, filters, userOptions)
  | [a0, a1, a2] =>
    match unmarshalString a0 with
    | none => Except.error (GoError.decodeError "json: cannot unmarshal dbname")
    | some dbname =>
      match unmarshalString a1 with
      | none => Except.error (GoError.decodeError "json: cannot unmarshal collectionName")
      | some collectionName =>
        match filterSlice.unmarshalJSON a2 with
        | Except.error e => Except.error e
        | Except.ok filters => Except.ok (dbname, collectionName, filters, [])
  | _ => Except.error (GoError.argumentError args.length)

/-- findOne handler body (src/main.go lines 113-161): decode arguments,
populate find-one options, run the driver call; mongo.ErrNoDocuments is
returned verbatim (the NotFound case), every other driver failure is
wrapped; a found document is re-serialised (modelled as identity, result
documents being uninterpreted pass-through values at this layer). -/
def findOneHandler (driver : MongoDriver) (args : List Json) : Except GoError Json :=
  match decodeFindArgs args with
  | Except.error e => Except.error e
  | Except.ok (dbname, collectionName, filters, userOptions) =>
    let opts := findOneOpts userOptions
    match driver.findOneRes dbname collectionName (filterSlice.ToBSOND filters) opts with
    | FindOneOutcome.found result => Except.ok result
    | FindOneOutcome.noDocuments => Except.error GoError.errNoDocuments
    | FindOneOutcome.driverError e => Except.error (GoError.wrap "findOne failed with: " e)

/-- json.Marshal of the results slice of findMany: cursor.All leaves the
nil slice nil when zero documents are decoded (the final reslice of a nil
slice is nil), and encoding/json renders a nil slice as JSON null; a
non-empty slice renders as a JSON array. -/
def marshalResults (results : List Json) : Json :=
  match results with
  | [] => Json.null
  | docs => Json.arr docs

/-- findMany handler body (src/main.go lines 166-232): decode arguments,
populate find options, run coll.Find (errors wrapped with the findMany
label), materialise the cursor with cursor.All (errors wrapped with the
cursor label), and marshal the results slice. -/
def findManyHandler (driver : MongoDriver) (args : List Json) : Except GoError Json :=
  match decodeFindArgs args with
  | Except.error e => Except.error e
  | Except.ok (dbname, collectionName, filters, userOptions) =>
    let opts := findOpts userOptions
    match driver.findRes dbname collectionName (filterSlice.ToBSOND filters) opts with
    | Except.error e => Except.error (GoError.wrap "findMany failed with: " e)
    | Except.ok cursor =>
      match driver.cursorAllRes cursor with
      | Except.error e => Except.error (GoError.wrap "findMany cursor failed with: " e)
      | Except.ok results => Except.ok (marshalResults results)

/-- A well-behaved driver over an abstract store: colls gives the
documents of each database/collection pair, matchDoc the driver-side
filter semantics.  FindOne yields the first matching document or
ErrNoDocuments; Find yields the cursor over all matching documents;
cursor.All materialises it without failure. -/
def storeDriver (colls : String → String → List Json)
    (matchDoc : List bsonE → Json → Bool) : MongoDriver :=
  { findOneRes := fun db c filter _ =>
      match (colls db c).filter (matchDoc filter) with
      | [] => FindOneOutcome.noDocuments
      | d :: _ => FindOneOutcome.found d
    findRes := fun db c filter _ => Except.ok ((colls db c).filter (matchDoc filter))
    cursorAllRes := fun docs => Except.ok docs }

/-- A driver whose find call fails with the given error (used to model a
driver-level failure such as a canceled context surfacing from
coll.Find). -/
def failingDriver (e : GoError) : MongoDriver :=
  { findOneRes := fun _ _ _ _ => FindOneOutcome.driverError e
    findRes := fun _ _ _ _ => Except.error e
    cursorAllRes := fun _ => Except.error e }

/-- Did the handler produce a success value? -/
def isOkResult (r : Except GoError Json) : Bool :=
  match r with
  | Except.ok _ => true
  | Except.error _ => false

/-- Did the handler produce an error? -/
def isErrorResult (r : Except GoError filterTuple) : Bool :=
  match r with
  | Except.ok _ => false
  | Except.error _ => true

/-- Evaluation of the tuple decoder on a 2-element array, with the
attempts left symbolic. -/
theorem unmarshalJSON_pair (a b : Json) :
    filterTuple.unmarshalJSON (Json.arr [a, b]) =
      (match unmarshalString a with
       | none =>
         Except.error (GoError.decodeError "json: cannot unmarshal value into Go value of type string")
       | some key =>
         match unmarshalHexObjID b with
         | some candidate =>
           match ObjectIDFromHex candidate with
           | some oid => Except.ok { Key := key, Value := BsonValue.objectId oid }
           | none => Except.ok { Key := key, Value := BsonValue.json b }
         | none => Except.ok { Key := key, Value := BsonValue.json b }) := rfl

theorem unmarshalHexObjID_single_wrapper (s : String) :
    unmarshalHexObjID (Json.obj [("ObjectId", Json.str s)]) = some s := rfl

theorem ObjectIDFromHex_valid (s : String) (h : isValidObjectIdHex s = true) :
    ObjectIDFromHex s = some (oidOfHex s) := by
  unfold ObjectIDFromHex
  rw [h]
  simp

/-- C1: for every 24-hex-character string s that hex-decodes to exactly 12
bytes, decoding a filter-tuple value given as the wrapper object with an
ObjectId field holding s yields an ObjectReference, while decoding the
same string s supplied as a bare JSON string yields the plain string s,
not a reference. -/
theorem wrapper_hex_is_reference_bare_hex_is_string (k s : String)
    (h : isValidObjectIdHex s = true) :
    filterTuple.unmarshalJSON (Json.arr [Json.str k, Json.obj [("ObjectId", Json.str s)]])
      = Except.ok { Key := k, Value := BsonValue.objectId (oidOfHex s) }
    ∧ (BsonValue.objectId (oidOfHex s)).isObjectRef = true
    ∧ filterTuple.unmarshalJSON (Json.arr [Json.str k, Json.str s])
      = Except.ok { Key := k, Value := BsonValue.json (Json.str s) }
    ∧ (BsonValue.json (Json.str s)).isObjectRef = false := by
  refine ⟨?_, rfl, rfl, rfl⟩
  rw [unmarshalJSON_pair]
  simp only [unmarshalString, unmarshalHexObjID_single_wrapper, ObjectIDFromHex_valid s h]

/-- Witness for C1 at a concrete valid hex string. -/
theorem wrapper_hex_is_reference_bare_hex_is_string_witness :
    isValidObjectIdHex "00ffAB0000000000000000c3" = true
    ∧ (filterTuple.unmarshalJSON
        (Json.arr [Json.str "k", Json.obj [("ObjectId", Json.str "00ffAB0000000000000000c3")]])
        = Except.ok { Key := "k", Value := BsonValue.objectId (oidOfHex "00ffAB0000000000000000c3") }
      ∧ (BsonValue.objectId (oidOfHex "00ffAB0000000000000000c3")).isObjectRef = true
      ∧ filterTuple.unmarshalJSON (Json.arr [Json.str "k", Json.str "00ffAB0000000000000000c3"])
        = Except.ok { Key := "k", Value := BsonValue.json (Json.str "00ffAB0000000000000000c3") }
      ∧ (BsonValue.json (Json.str "00ffAB0000000000000000c3")).isObjectRef = false) :=
  ⟨by decide, wrapper_hex_is_reference_bare_hex_is_string "k" "00ffAB0000000000000000c3" (by decide)⟩

theorem decodeTuples_pointwise (js : List Json) (ts : List filterTuple)
    (h : decodeTuples js = Except.ok ts) :
    ts.length = js.length
    ∧ ∀ i (hi : i < js.length) (hj : i < ts.length),
        filterTuple.unmarshalJSON (js.get ⟨i, hi⟩) = Except.ok (ts.get ⟨i, hj⟩) := by
  induction js generalizing ts with
  | nil =>
    cases h
    exact ⟨rfl, fun i hi _ => absurd hi (Nat.not_lt_zero i)⟩
  | cons j rest ih =>
    rw [decodeTuples] at h
    cases hu : filterTuple.unmarshalJSON j with
    | error e => rw [hu] at h; cases h
    | ok t =>
      rw [hu] at h
      cases hr : decodeTuples rest with
      | error e => rw [hr] at h; cases h
      | ok ts2 =>
        rw [hr] at h
        cases h
        obtain ⟨hlen, hpt⟩ := ih ts2 hr
        refine ⟨by simp [hlen], ?_⟩
        intro i hi hj
        cases i with
        | zero => exact hu
        | succ n =>
          exact hpt n (Nat.lt_of_succ_lt_succ hi) (Nat.lt_of_succ_lt_succ hj)

theorem ToBSOND_verbatim (r : filterSlice) : filterSlice.ToBSOND r = r := by
  unfold filterSlice.ToBSOND
  induction r with
  | nil => rfl
  | cons t rest ih => simp [ih]

/-- C5: filter-set decoding of a JSON array preserves input order (each
decoded tuple at position i comes from the input element at position i),
the conversion to bson.D passes every tuple through verbatim in that same
order, and the empty array decodes to the empty (match-all) filter. -/
theorem filterSet_order_preserved_and_verbatim (js : List Json) (ts : filterSlice)
    (h : filterSlice.unmarshalJSON (Json.arr js) = Except.ok ts) :
    ts.length = js.length
    ∧ (∀ i (hi : i < js.length) (hj : i < ts.length),
        filterTuple.unmarshalJSON (js.get ⟨i, hi⟩) = Except.ok (ts.get ⟨i, hj⟩))
    ∧ filterSlice.ToBSOND ts = ts
    ∧ filterSlice.unmarshalJSON (Json.arr []) = Except.ok []
    ∧ filterSlice.ToBSOND [] = [] := by
  rw [filterSlice.unmarshalJSON] at h
  obtain ⟨hlen, hpt⟩ := decodeTuples_pointwise js ts h
  exact ⟨hlen, hpt, ToBSOND_verbatim ts, rfl, rfl⟩

/-- Witness for C5 on a concrete two-tuple array, one value an ObjectId
wrapper and one a scalar. -/
theorem filterSet_order_preserved_and_verbatim_witness :
    filterSlice.unmarshalJSON
        (Json.arr [Json.arr [Json.str "a", Json.num 1],
                   Json.arr [Json.str "b", Json.str "x"]])
      = Except.ok [{ Key := "a", Value := BsonValue.json (Json.num 1) },
                   { Key := "b", Value := BsonValue.json (Json.str "x") }]
    ∧ ([{ Key := "a", Value := BsonValue.json (Json.num 1) },
        { Key := "b", Value := BsonValue.json (Json.str "x") }] : filterSlice).length = 2
    ∧ filterSlice.ToBSOND
        [{ Key := "a", Value := BsonValue.json (Json.num 1) },
         { Key := "b", Value := BsonValue.json (Json.str "x") }]
      = [{ Key := "a", Value := BsonValue.json (Json.num 1) },
         { Key := "b", Value := BsonValue.json (Json.str "x") }] := by
  refine ⟨rfl, ?_, ?_⟩
  · exact (filterSet_order_preserved_and_verbatim
      [Json.arr [Json.str "a", Json.num 1], Json.arr [Json.str "b", Json.str "x"]]
      [{ Key := "a", Value := BsonValue.json (Json.num 1) },
       { Key := "b", Value := BsonValue.json (Json.str "x") }] rfl).1
  · exact (filterSet_order_preserved_and_verbatim
      [Json.arr [Json.str "a", Json.num 1], Json.arr [Json.str "b", Json.str "x"]]
      [{ Key := "a", Value := BsonValue.json (Json.num 1) },
       { Key := "b", Value := BsonValue.json (Json.str "x") }] rfl).2.2.1

theorem decodeFindArgs_three (db c : String) (fj : Json) :
    decodeFindArgs [Json.str db, Json.str c, fj] =
      (match filterSlice.unmarshalJSON fj with
       | Except.error e => Except.error e
       | Except.ok filters => Except.ok (db, c, filters, ([] : OptionsBag))) := rfl

theorem decodeFindArgs_four (db c : String) (fj oj : Json) :
    decodeFindArgs [Json.str db, Json.str c, fj, oj] =
      (match filterSlice.unmarshalJSON fj with
       | Except.error e => Except.error e
       | Except.ok filters =>
         match decodeOptionsBag oj with
         | Except.error e => Except.error e
         | Except.ok userOptions => Except.ok (db, c, filters, userOptions)) := rfl

theorem decodeFindArgs_wrong_arity (args : List Json)
    (h3 : args.length ≠ 3) (h4 : args.length ≠ 4) :
    decodeFindArgs args = Except.error (GoError.argumentError args.length) := by
  match args with
  | [] => rfl
  | [a] => rfl
  | [a, b] => rfl
  | [a, b, c] => exact absurd rfl h3
  | [a, b, c, d] => exact absurd rfl h4
  | a :: b :: c :: d :: e :: rest => rfl

/-- C6: find-one and find-many accept exactly 3 positional arguments
(database, collection, filters; the options map stays nil so defaults
apply) or exactly 4 (adding the options bag); every other argument count
fails with an ArgumentError independently of the store (no driver
interaction can influence or observe the call). -/
theorem find_arity_contract (driver : MongoDriver) (db c : String) (fj oj : Json)
    (fs : filterSlice) (bag : OptionsBag)
    (hf : filterSlice.unmarshalJSON fj = Except.ok fs)
    (ho : decodeOptionsBag oj = Except.ok bag)
    (args : List Json) (h3 : args.length ≠ 3) (h4 : args.length ≠ 4) :
    decodeFindArgs [Json.str db, Json.str c, fj] = Except.ok (db, c, fs, ([] : OptionsBag))
    ∧ decodeFindArgs [Json.str db, Json.str c, fj, oj] = Except.ok (db, c, fs, bag)
    ∧ findOneHandler driver args = Except.error (GoError.argumentError args.length)
    ∧ findManyHandler driver args = Except.error (GoError.argumentError args.length) := by
  have harity := decodeFindArgs_wrong_arity args h3 h4
  refine ⟨?_, ?_, ?_, ?_⟩
  · rw [decodeFindArgs_three, hf]
  · rw [decodeFindArgs_four, hf, ho]
  · unfold findOneHandler
    rw [harity]
  · unfold findManyHandler
    rw [harity]

/-- Witness for C6: arity 2 fails for both handlers while 3 and 4 decode. -/
theorem find_arity_contract_witness :
    filterSlice.unmarshalJSON (Json.arr []) = Except.ok []
    ∧ decodeOptionsBag (Json.obj []) = Except.ok []
    ∧ ([Json.str "d", Json.str "c"] : List Json).length ≠ 3
    ∧ ([Json.str "d", Json.str "c"] : List Json).length ≠ 4
    ∧ (decodeFindArgs [Json.str "d", Json.str "c", Json.arr []]
        = Except.ok ("d", "c", ([] : filterSlice), ([] : OptionsBag))
      ∧ decodeFindArgs [Json.str "d", Json.str "c", Json.arr [], Json.obj []]
        = Except.ok ("d", "c", ([] : filterSlice), ([] : OptionsBag))
      ∧ findOneHandler (storeDriver (fun _ _ => []) (fun _ _ => false)) [Json.str "d", Json.str "c"]
        = Except.error (GoError.argumentError 2)
      ∧ findManyHandler (storeDriver (fun _ _ => []) (fun _ _ => false)) [Json.str "d", Json.str "c"]
        = Except.error (GoError.argumentError 2)) :=
  ⟨rfl, rfl, by decide, by decide,
    find_arity_contract (storeDriver (fun _ _ => []) (fun _ _ => false)) "d" "c"
      (Json.arr []) (Json.obj []) [] [] rfl rfl [Json.str "d", Json.str "c"]
      (by decide) (by decide)⟩

/-- C7: the find-one options population reads only the projection key of
the options bag: the projection modifier equals the bag lookup and every
other find-one query modifier stays at its default, whatever else the bag
holds. -/
theorem findOneOpts_only_projection (bag : OptionsBag) :
    (findOneOpts bag).Projection = mapLookup bag "projection"
    ∧ (findOneOpts bag).SortOpt = none
    ∧ (findOneOpts bag).Skip = none
    ∧ (findOneOpts bag).AllowPartialResults = none := by
  unfold findOneOpts
  cases mapLookup bag "projection" <;> exact ⟨rfl, rfl, rfl, rfl⟩

theorem FindOptions.ext4 (x y : FindOptions)
    (h1 : x.Projection = y.Projection) (h2 : x.SortOpt = y.SortOpt)
    (h3 : x.AllowDiskUse = y.AllowDiskUse) (h4 : x.Limit = y.Limit) : x = y := by
  cases x
  cases y
  simp only [FindOptions.mk.injEq]
  exact ⟨h1, h2, h3, h4⟩

/-- Characterisation of the four modifier fields produced by the findMany
options population, one per recognised key. -/
theorem findOpts_fields (bag : OptionsBag) :
    (findOpts bag).Projection = mapLookup bag "projection"
    ∧ (findOpts bag).SortOpt = mapLookup bag "sort"
    ∧ (findOpts bag).AllowDiskUse
        = (match mapLookup bag "allow-disk-use" with
           | some (Json.bool r) => some r
           | _ => none)
    ∧ (findOpts bag).Limit
        = (match mapLookup bag "limit" with
           | some (Json.num r) => some r
           | _ => none) := by
  unfold findOpts
  rcases mapLookup bag "projection" with _ | p <;>
    rcases mapLookup bag "sort" with _ | s <;>
    rcases mapLookup bag "allow-disk-use" with _ | a <;>
    rcases mapLookup bag "limit" with _ | l
  all_goals try cases a
  all_goals try cases l
  all_goals exact ⟨rfl, rfl, rfl, rfl⟩

/-- C4: a recognised options key holding a wrongly-typed value never fails
the surrounding find-many call: the mismatched modifier is left unset, the
populated modifiers depend only on the four recognised keys (unknown keys
have no effect), and the handler still succeeds. -/
theorem findOpts_wrong_type_non_fatal (bag : OptionsBag) (v w : Json)
    (hl : mapLookup bag "limit" = some v) (hv : ∀ x, v ≠ Json.num x)
    (ha : mapLookup bag "allow-disk-use" = some w) (hw : ∀ b, w ≠ Json.bool b)
    (bag2 : OptionsBag)
    (hp2 : mapLookup bag2 "projection" = mapLookup bag "projection")
    (hs2 : mapLookup bag2 "sort" = mapLookup bag "sort")
    (ha2 : mapLookup bag2 "allow-disk-use" = mapLookup bag "allow-disk-use")
    (hl2 : mapLookup bag2 "limit" = mapLookup bag "limit")
    (colls : String → String → List Json) (matchDoc : List bsonE → Json → Bool)
    (db c : String) :
    (findOpts bag).Limit = none
    ∧ (findOpts bag).AllowDiskUse = none
    ∧ findOpts bag2 = findOpts bag
    ∧ isOkResult (findManyHandler (storeDriver colls matchDoc)
        [Json.str db, Json.str c, Json.arr [], Json.obj bag]) = true := by
  obtain ⟨p1, s1, a1, l1⟩ := findOpts_fields bag
  obtain ⟨p2, s2, a2, l2⟩ := findOpts_fields bag2
  refine ⟨?_, ?_, ?_, rfl⟩
  · rw [l1, hl]
    cases v with
    | num x => exact absurd rfl (hv x)
    | null => rfl
    | bool b => rfl
    | str s => rfl
    | arr elems => rfl
    | obj fields => rfl
  · rw [a1, ha]
    cases w with
    | bool b => exact absurd rfl (hw b)
    | null => rfl
    | num x => rfl
    | str s => rfl
    | arr elems => rfl
    | obj fields => rfl
  · refine FindOptions.ext4 _ _ ?_ ?_ ?_ ?_
    · rw [p2, p1, hp2]
    · rw [s2, s1, hs2]
    · rw [a2, a1, ha2]
    · rw [l2, l1, hl2]

/-- Witness for C4: limit given as a string and allow-disk-use as a
number, plus an unknown key; the call still succeeds and both modifiers
stay unset. -/
theorem findOpts_wrong_type_non_fatal_witness :
    mapLookup [("limit", Json.str "five"), ("allow-disk-use", Json.num 1), ("junk", Json.null)] "limit"
      = some (Json.str "five")
    ∧ ((findOpts [("limit", Json.str "five"), ("allow-disk-use", Json.num 1), ("junk", Json.null)]).Limit = none
      ∧ (findOpts [("limit", Json.str "five"), ("allow-disk-use", Json.num 1), ("junk", Json.null)]).AllowDiskUse = none
      ∧ findOpts [("limit", Json.str "five"), ("allow-disk-use", Json.num 1)]
          = findOpts [("limit", Json.str "five"), ("allow-disk-use", Json.num 1), ("junk", Json.null)]
      ∧ isOkResult (findManyHandler (storeDriver (fun _ _ => []) (fun _ _ => false))
          [Json.str "d", Json.str "c", Json.arr [],
           Json.obj [("limit", Json.str "five"), ("allow-disk-use", Json.num 1), ("junk", Json.null)]]) = true) :=
  ⟨rfl, findOpts_wrong_type_non_fatal
    [("limit", Json.str "five"), ("allow-disk-use", Json.num 1), ("junk", Json.null)]
    (Json.str "five") (Json.num 1) rfl (fun _ h => nomatch h) rfl (fun _ h => nomatch h)
    [("limit", Json.str "five"), ("allow-disk-use", Json.num 1)]
    rfl rfl rfl rfl (fun _ _ => []) (fun _ _ => false) "d" "c"⟩

/-- C2: filter-tuple decoding fails exactly when the input is not a JSON
array of exactly 2 elements, or the first element does not decode as a
string; in particular a failure of the ObjectReference attempt alone
(malformed or wrong-length hex in a wrapper object) never produces an
error, because the generic fallback decode of a parsed JSON value always
succeeds. -/
theorem filterTuple_error_characterisation (j : Json) :
    isErrorResult (filterTuple.unmarshalJSON j) = true ↔
      ((¬ ∃ k v, j = Json.arr [k, v])
        ∨ (∃ k v, j = Json.arr [k, v] ∧ unmarshalString k = none)) := by
  cases j with
  | null =>
    exact iff_of_true rfl (Or.inl (by rintro ⟨k, v, h⟩; cases h))
  | bool b =>
    exact iff_of_true rfl (Or.inl (by rintro ⟨k, v, h⟩; cases h))
  | num n =>
    exact iff_of_true rfl (Or.inl (by rintro ⟨k, v, h⟩; cases h))
  | str s =>
    exact iff_of_true rfl (Or.inl (by rintro ⟨k, v, h⟩; cases h))
  | obj fields =>
    exact iff_of_true rfl (Or.inl (by rintro ⟨k, v, h⟩; cases h))
  | arr xs =>
    match xs with
    | [] =>
      refine iff_of_true rfl (Or.inl ?_)
      rintro ⟨k, v, h⟩
      simp at h
    | [a] =>
      refine iff_of_true rfl (Or.inl ?_)
      rintro ⟨k, v, h⟩
      simp at h
    | [a, b] =>
      rw [unmarshalJSON_pair]
      cases hu : unmarshalString a with
      | none =>
        exact iff_of_true rfl (Or.inr ⟨a, b, rfl, hu⟩)
      | some key =>
        refine iff_of_false ?_ ?_
        · dsimp only
          cases unmarshalHexObjID b with
          | none => simp [isErrorResult]
          | some candidate =>
            dsimp only
            cases ObjectIDFromHex candidate <;> simp [isErrorResult]
        · rintro (hne | ⟨k, v, heq, hks⟩)
          · exact hne ⟨a, b, rfl⟩
          · simp only [Json.arr.injEq, List.cons.injEq, and_true] at heq
            obtain ⟨hk, hv, -⟩ := heq
            rw [← hk] at hks
            rw [hu] at hks
            cases hks
    | a :: b :: c :: rest =>
      refine iff_of_true rfl (Or.inl ?_)
      rintro ⟨k, v, h⟩
      simp at h

theorem findOneHandler_store (colls : String → String → List Json)
    (matchDoc : List bsonE → Json → Bool) (db c : String) (fj : Json)
    (fs : filterSlice) (hf : filterSlice.unmarshalJSON fj = Except.ok fs) :
    findOneHandler (storeDriver colls matchDoc) [Json.str db, Json.str c, fj] =
      (match (colls db c).filter (matchDoc (filterSlice.ToBSOND fs)) with
       | [] => Except.error GoError.errNoDocuments
       | d :: _ => Except.ok d) := by
  unfold findOneHandler
  rw [decodeFindArgs_three, hf]
  dsimp only [storeDriver]
  cases List.filter (matchDoc (filterSlice.ToBSOND fs)) (colls db c) <;> rfl

theorem findManyHandler_store (colls : String → String → List Json)
    (matchDoc : List bsonE → Json → Bool) (db c : String) (fj : Json)
    (fs : filterSlice) (hf : filterSlice.unmarshalJSON fj = Except.ok fs) :
    findManyHandler (storeDriver colls matchDoc) [Json.str db, Json.str c, fj] =
      Except.ok (marshalResults ((colls db c).filter (matchDoc (filterSlice.ToBSOND fs)))) := by
  unfold findManyHandler
  rw [decodeFindArgs_three, hf]
  dsimp only [storeDriver]

/-- C3: on a filter matching zero documents, find-one fails with the bare
ErrNoDocuments error (NotFound, not of the wrapped StoreError shape that
every other driver failure receives), while find-many with the same
filter succeeds instead of failing. -/
theorem findOne_notFound_findMany_empty_asymmetry
    (colls : String → String → List Json) (matchDoc : List bsonE → Json → Bool)
    (db c : String) (fj : Json) (fs : filterSlice)
    (hf : filterSlice.unmarshalJSON fj = Except.ok fs)
    (hzero : (colls db c).filter (matchDoc (filterSlice.ToBSOND fs)) = []) :
    findOneHandler (storeDriver colls matchDoc) [Json.str db, Json.str c, fj]
      = Except.error GoError.errNoDocuments
    ∧ GoError.isStoreWrapped GoError.errNoDocuments = false
    ∧ (∀ e, findOneHandler (failingDriver e) [Json.str db, Json.str c, fj]
          = Except.error (GoError.wrap "findOne failed with: " e)
        ∧ GoError.isStoreWrapped (GoError.wrap "findOne failed with: " e) = true)
    ∧ isOkResult (findManyHandler (storeDriver colls matchDoc) [Json.str db, Json.str c, fj])
      = true := by
  refine ⟨?_, rfl, ?_, ?_⟩
  · rw [findOneHandler_store colls matchDoc db c fj fs hf, hzero]
  · intro e
    refine ⟨?_, rfl⟩
    unfold findOneHandler
    rw [decodeFindArgs_three, hf]
    rfl
  · rw [findManyHandler_store colls matchDoc db c fj fs hf]
    rfl

/-- Witness for C3 on an empty collection and a trivial filter. -/
theorem findOne_notFound_findMany_empty_asymmetry_witness :
    filterSlice.unmarshalJSON (Json.arr []) = Except.ok []
    ∧ (List.filter ((fun _ _ => false) (filterSlice.ToBSOND [])) ((fun _ _ => ([] : List Json)) "d" "c")) = []
    ∧ (findOneHandler (storeDriver (fun _ _ => []) (fun _ _ => false)) [Json.str "d", Json.str "c", Json.arr []]
        = Except.error GoError.errNoDocuments
      ∧ GoError.isStoreWrapped GoError.errNoDocuments = false
      ∧ (∀ e, findOneHandler (failingDriver e) [Json.str "d", Json.str "c", Json.arr []]
            = Except.error (GoError.wrap "findOne failed with: " e)
          ∧ GoError.isStoreWrapped (GoError.wrap "findOne failed with: " e) = true)
      ∧ isOkResult (findManyHandler (storeDriver (fun _ _ => []) (fun _ _ => false))
          [Json.str "d", Json.str "c", Json.arr []]) = true) :=
  ⟨rfl, rfl, findOne_notFound_findMany_empty_asymmetry
    (fun _ _ => []) (fun _ _ => false) "d" "c" (Json.arr []) [] rfl rfl⟩

/-- C9: when find-many matches zero documents, the JSON value returned to
the caller is null (the serialisation of the nil results slice that
cursor.All leaves untouched), not the empty array. -/
theorem findMany_zero_matches_returns_null
    (colls : String → String → List Json) (matchDoc : List bsonE → Json → Bool)
    (db c : String) (fj : Json) (fs : filterSlice)
    (hf : filterSlice.unmarshalJSON fj = Except.ok fs)
    (hzero : (colls db c).filter (matchDoc (filterSlice.ToBSOND fs)) = []) :
    findManyHandler (storeDriver colls matchDoc) [Json.str db, Json.str c, fj]
      = Except.ok Json.null
    ∧ Json.null ≠ Json.arr []
    ∧ marshalResults [] = Json.null := by
  refine ⟨?_, ?_, rfl⟩
  · rw [findManyHandler_store colls matchDoc db c fj fs hf, hzero]
    rfl
  · intro h
    cases h

/-- Witness for C9 on an empty collection and a trivial filter. -/
theorem findMany_zero_matches_returns_null_witness :
    filterSlice.unmarshalJSON (Json.arr []) = Except.ok []
    ∧ (List.filter ((fun _ _ => false) (filterSlice.ToBSOND [])) ((fun _ _ => ([] : List Json)) "d" "c")) = []
    ∧ (findManyHandler (storeDriver (fun _ _ => []) (fun _ _ => false)) [Json.str "d", Json.str "c", Json.arr []]
        = Except.ok Json.null
      ∧ Json.null ≠ Json.arr []
      ∧ marshalResults [] = Json.null) :=
  ⟨rfl, rfl, findMany_zero_matches_returns_null
    (fun _ _ => []) (fun _ _ => false) "d" "c" (Json.arr []) [] rfl rfl⟩

/-- Counterexample to C8: when the driver call of find-many returns the
context-cancellation error, the handler wraps it with exactly the same
StoreError wrapper it uses for any other driver failure, so the operation
does not fail with a Canceled error kind distinct from StoreError. -/
theorem findMany_cancel_same_wrapper_as_store_failure :
    findManyHandler (failingDriver GoError.contextCanceled) [Json.str "d", Json.str "c", Json.arr []]
      = Except.error (GoError.wrap "findMany failed with: " GoError.contextCanceled)
    ∧ GoError.isStoreWrapped (GoError.wrap "findMany failed with: " GoError.contextCanceled) = true
    ∧ findManyHandler (failingDriver (GoError.simple "network down")) [Json.str "d", Json.str "c", Json.arr []]
      = Except.error (GoError.wrap "findMany failed with: " (GoError.simple "network down")) :=
  ⟨rfl, rfl, rfl⟩

/-- C8 (amended): when the driver call of find-many fails with the
context-cancellation error, the handler resolves with an error that wraps
the cancellation cause inside the uniform findMany StoreError wrapper
(the cause stays reachable through the unwrap chain, but the outer kind is
the same wrapping every driver failure receives). -/
theorem findMany_cancel_wrapped_store_error (db c : String) (fj : Json) (fs : filterSlice)
    (hf : filterSlice.unmarshalJSON fj = Except.ok fs) :
    findManyHandler (failingDriver GoError.contextCanceled) [Json.str db, Json.str c, fj]
      = Except.error (GoError.wrap "findMany failed with: " GoError.contextCanceled)
    ∧ GoError.goIs (GoError.wrap "findMany failed with: " GoError.contextCanceled)
        GoError.contextCanceled = true
    ∧ GoError.isStoreWrapped (GoError.wrap "findMany failed with: " GoError.contextCanceled)
      = true := by
  refine ⟨?_, by decide, rfl⟩
  unfold findManyHandler
  rw [decodeFindArgs_three, hf]
  rfl

/-- Witness for the amended C8 on a trivial filter. -/
theorem findMany_cancel_wrapped_store_error_witness :
    filterSlice.unmarshalJSON (Json.arr []) = Except.ok []
    ∧ (findManyHandler (failingDriver GoError.contextCanceled) [Json.str "d", Json.str "c", Json.arr []]
        = Except.error (GoError.wrap "findMany failed with: " GoError.contextCanceled)
      ∧ GoError.goIs (GoError.wrap "findMany failed with: " GoError.contextCanceled)
          GoError.contextCanceled = true
      ∧ GoError.isStoreWrapped (GoError.wrap "findMany failed with: " GoError.contextCanceled)
        = true) :=
  ⟨rfl, findMany_cancel_wrapped_store_error "d" "c" (Json.arr []) [] rfl⟩

theorem hexObjIDStep_append (l1 l2 : List (String × Json)) (acc : String) (err : Bool) :
    hexObjIDStep (l1 ++ l2) acc err =
      hexObjIDStep l2 (hexObjIDStep l1 acc err).1 (hexObjIDStep l1 acc err).2 := by
  induction l1 generalizing acc err with
  | nil => rfl
  | cons p rest ih =>
    obtain ⟨k, v⟩ := p
    by_cases hk : fieldMatchesObjectId k
    · cases v <;> simp [hexObjIDStep, hk, ih]
    · simp [hexObjIDStep, hk, ih]

theorem hexObjIDStep_no_match (l : List (String × Json)) (acc : String) (err : Bool)
    (h : ∀ p ∈ l, fieldMatchesObjectId p.1 = false) :
    hexObjIDStep l acc err = (acc, err) := by
  induction l with
  | nil => rfl
  | cons p rest ih =>
    obtain ⟨k, v⟩ := p
    have hk := h (k, v) (List.mem_cons_self _ _)
    simp only at hk
    simp only [hexObjIDStep, hk]
    exact ih (fun q hq => h q (List.mem_cons_of_mem _ hq))

theorem hexObjIDStep_keeps_clean (l : List (String × Json)) (acc : String)
    (h : ∀ p ∈ l, fieldMatchesObjectId p.1 = true → (∃ t, p.2 = Json.str t) ∨ p.2 = Json.null) :
    (hexObjIDStep l acc false).2 = false := by
  induction l generalizing acc with
  | nil => rfl
  | cons p rest ih =>
    obtain ⟨k, v⟩ := p
    by_cases hk : fieldMatchesObjectId k
    · rcases h (k, v) (List.mem_cons_self _ _) hk with ⟨t, ht⟩ | hnull
      · simp only at ht
        subst ht
        simp only [hexObjIDStep, hk, if_true]
        exact ih t (fun q hq => h q (List.mem_cons_of_mem _ hq))
      · simp only at hnull
        subst hnull
        simp only [hexObjIDStep, hk, if_true]
        exact ih acc (fun q hq => h q (List.mem_cons_of_mem _ hq))
    · simp only [hexObjIDStep, hk, if_false]
      exact ih acc (fun q hq => h q (List.mem_cons_of_mem _ hq))

/-- Counterexample to C10: an object holding the field ObjectId with a
valid 24-hex value plus one additional field whose name also matches
ObjectId case-insensitively but holds invalid hex.  The claim as stated
requires an ObjectReference; the decoder instead keeps the literal
document, because the later matching field overwrites the hex candidate. -/
theorem wrapper_extra_matching_field_counterexample :
    filterTuple.unmarshalJSON
        (Json.arr [Json.str "k",
          Json.obj [("ObjectId", Json.str "000000000000000000000000"), ("OBJECTID", Json.str "zzz")]])
      = Except.ok
          ⟨"k", BsonValue.json
            (Json.obj [("ObjectId", Json.str "000000000000000000000000"), ("OBJECTID", Json.str "zzz")])⟩
    ∧ (BsonValue.json
        (Json.obj [("ObjectId", Json.str "000000000000000000000000"), ("OBJECTID", Json.str "zzz")])).isObjectRef
      = false
    ∧ isValidObjectIdHex "000000000000000000000000" = true
    ∧ fieldMatchesObjectId "ObjectId" = true :=
  ⟨rfl, rfl, by decide, by decide⟩

/-- C10 (amended): reference-wrapper recognition is lenient as long as the
ObjectId assignment survives: if the last field whose name matches
ObjectId case-insensitively holds a valid 24-hex string, every earlier
matching field holds a string or null, and the remaining fields do not
match, the value decodes as an ObjectReference and all extra fields are
discarded. -/
theorem wrapper_lenient_recognition (k kid s : String) (fs1 fs2 : List (String × Json))
    (hkid : fieldMatchesObjectId kid = true)
    (h1 : ∀ p ∈ fs1, fieldMatchesObjectId p.1 = true → (∃ t, p.2 = Json.str t) ∨ p.2 = Json.null)
    (h2 : ∀ p ∈ fs2, fieldMatchesObjectId p.1 = false)
    (hs : isValidObjectIdHex s = true) :
    unmarshalHexObjID (Json.obj (fs1 ++ (kid, Json.str s) :: fs2)) = some s
    ∧ filterTuple.unmarshalJSON
        (Json.arr [Json.str k, Json.obj (fs1 ++ (kid, Json.str s) :: fs2)])
      = Except.ok { Key := k, Value := BsonValue.objectId (oidOfHex s) }
    ∧ (BsonValue.objectId (oidOfHex s)).isObjectRef = true := by
  have hstep : hexObjIDStep (fs1 ++ (kid, Json.str s) :: fs2) "" false = (s, false) := by
    rw [hexObjIDStep_append]
    have he1 := hexObjIDStep_keeps_clean fs1 "" h1
    rcases hfs1 : hexObjIDStep fs1 "" false with ⟨a1, e1⟩
    rw [hfs1] at he1
    simp only at he1
    subst he1
    simp only [hexObjIDStep, hkid, if_true]
    exact hexObjIDStep_no_match fs2 s false h2
  have hum : unmarshalHexObjID (Json.obj (fs1 ++ (kid, Json.str s) :: fs2)) = some s := by
    dsimp only [unmarshalHexObjID]
    rw [hstep]
  have h3 : unmarshalString (Json.str k) = some k := rfl
  refine ⟨hum, ?_, rfl⟩
  rw [unmarshalJSON_pair, h3, hum]
  dsimp only
  rw [ObjectIDFromHex_valid s hs]

/-- Witness for the amended C10: one extra non-matching field ahead of a
lower-cased objectid key holding valid hex. -/
theorem wrapper_lenient_recognition_witness :
    fieldMatchesObjectId "objectID" = true
    ∧ isValidObjectIdHex "0123456789abcdef01234567" = true
    ∧ (unmarshalHexObjID
          (Json.obj ([("extra", Json.bool true)] ++ ("objectID", Json.str "0123456789abcdef01234567") :: []))
        = some "0123456789abcdef01234567"
      ∧ filterTuple.unmarshalJSON
          (Json.arr [Json.str "k",
            Json.obj ([("extra", Json.bool true)] ++ ("objectID", Json.str "0123456789abcdef01234567") :: [])])
        = Except.ok { Key := "k", Value := BsonValue.objectId (oidOfHex "0123456789abcdef01234567") }
      ∧ (BsonValue.objectId (oidOfHex "0123456789abcdef01234567")).isObjectRef = true) :=
  ⟨by decide, by decide,
    wrapper_lenient_recognition "k" "objectID" "0123456789abcdef01234567"
      [("extra", Json.bool true)] []
      (by decide)
      (fun p hp hmatch => by
        obtain rfl := List.mem_singleton.mp hp
        exact absurd hmatch (by decide))
      (fun p hp => nomatch hp)
      (by decide)⟩
